import Mathlib

/-!
# Verification of the AI-Image-Caption-Generator service

A shallow embedding, in Lean 4, of the caption service: the retry/backoff
wrapper of `vision.service.ts` (`VisionService.withRetry`), the caption
extraction and error mapping of `generateCaption` /
`generateCaptionWithPrompt`, the validation and response construction of
`caption.route.ts` (`validateFile`, the two `POST` handlers, the health
handler and the error middleware), and the constants of `types/index.ts`.

Asynchronous effects are made explicit: an operation passed to the retry
wrapper becomes a function from the attempt index to that invocation's
outcome (`Except`), and the trace records the outcome, the number of
invocations and the backoff delays awaited.  JavaScript string primitives
(`includes`, `toLowerCase`, `trim`) are embedded as structurally recursive
functions on character lists so that every definition evaluates by `decide`
or `rfl`.
-/

instance {ε α : Type} [DecidableEq ε] [DecidableEq α] : DecidableEq (Except ε α)
  | Except.ok a, Except.ok b =>
      if h : a = b then isTrue (by rw [h])
      else isFalse (by intro hc; cases hc; exact h rfl)
  | Except.ok _, Except.error _ => isFalse (by intro hc; cases hc)
  | Except.error _, Except.ok _ => isFalse (by intro hc; cases hc)
  | Except.error a, Except.error b =>
      if h : a = b then isTrue (by rw [h])
      else isFalse (by intro hc; cases hc; exact h rfl)

/-- JS `String.prototype.startsWith` on character lists: `pat` is a prefix of
`hay`. -/
def startsWithL (hay pat : List Char) : Bool :=
  match hay, pat with
  | _, [] => true
  | [], _ :: _ => false
  | h :: hs, p :: ps => h == p && startsWithL hs ps

/-- JS `String.prototype.includes` on character lists: `pat` occurs contiguously
in `hay`. -/
def containsSub (hay pat : List Char) : Bool :=
  match hay with
  | [] => startsWithL [] pat
  | _ :: hs => startsWithL hay pat || containsSub hs pat

/-- JS `String.prototype.includes`, lifted to `String`. -/
def strContains (s sub : String) : Bool :=
  containsSub s.toList sub.toList

/-- JS `String.prototype.toLowerCase` (faithful on the ASCII strings the service
compares). -/
def strToLower (s : String) : String :=
  String.mk (s.toList.map Char.toLower)

/-- JS `String.prototype.trim`: strip leading and trailing whitespace. -/
def jsTrim (s : String) : String :=
  String.mk (((s.toList.dropWhile Char.isWhitespace).reverse.dropWhile
    Char.isWhitespace).reverse)

namespace VisionService

/-- `this.maxRetries = 3` (vision.service.ts, line 16). -/
def maxRetries : Nat := 3

/-- `this.baseDelay = 1000` milliseconds (vision.service.ts, line 17). -/
def baseDelay : Nat := 1000

/-- The rate-limit test applied to a caught error's message inside `withRetry`
(vision.service.ts, lines 41-42): the message contains `"429"`, or its
lower-casing contains `"rate limit"`.  Only `lastError.message` is consulted;
no status field of the failed response exists in this test. -/
def isRateLimit (msg : String) : Bool :=
  strContains msg "429" || strContains (strToLower msg) "rate limit"

/-- Trace of one call to `withRetry`: the final outcome, the number of times the
operation was invoked, and the backoff delays (in ms) awaited, in order. -/
structure RetryTrace (T : Type) where
  result : Except String T
  attempts : Nat
  delays : List Nat

/-- The `for` loop of `withRetry` (vision.service.ts, lines 34-53).  `fuel` is
the number of remaining loop iterations (`maxRetries - attempt`), `attempt` the
loop index, `lastError` the message of the last caught error.  Each iteration
invokes the operation: a success returns its value; a failure that the
`isRateLimit` test accepts while `attempt < maxRetries - 1` awaits
`baseDelay * 2 ^ attempt` and continues; any other failure is rethrown.  The
code after the loop (`throw lastError`, reached only when the loop runs out
with `lastError` still `null`-able) is the `fuel = 0` case. -/
def withRetryGo {T : Type} (op : Nat → Except String T) :
    Nat → Nat → Option String → RetryTrace T
  | 0, attempt, lastError =>
    { result := Except.error (lastError.getD "null"), attempts := attempt,
      delays := [] }
  | fuel + 1, attempt, _ =>
    match op attempt with
    | Except.ok v =>
        { result := Except.ok v, attempts := attempt + 1, delays := [] }
    | Except.error e =>
        if isRateLimit e && decide (attempt < maxRetries - 1) then
          let rest := withRetryGo op fuel (attempt + 1) (some e)
          { result := rest.result, attempts := rest.attempts,
            delays := baseDelay * 2 ^ attempt :: rest.delays }
        else
          { result := Except.error e, attempts := attempt + 1, delays := [] }

/-- `VisionService.withRetry` (vision.service.ts, lines 31-56).  The
asynchronous operation is modelled as a function from the attempt index to that
invocation's outcome; errors carry their message string, mirroring
`error instanceof Error ? error : new Error(String(error))`. -/
def withRetry {T : Type} (op : Nat → Except String T) : RetryTrace T :=
  withRetryGo op maxRetries 0 none

end VisionService

/-- `SUPPORTED_IMAGE_TYPES` (types/index.ts, lines 27-32). -/
def SUPPORTED_IMAGE_TYPES : List String :=
  ["image/jpeg", "image/png", "image/gif", "image/webp"]

/-- An uploaded file as multer hands it to the route handler: the in-memory
buffer (byte list) and the declared MIME type. -/
structure UploadedFile where
  buffer : List Nat
  mimetype : String
  deriving DecidableEq

/-- `ValidationResult` (types/index.ts, lines 39-42). -/
structure ValidationResult where
  isValid : Bool
  error : Option String
  deriving DecidableEq

/-- `CaptionResponse` (types/index.ts, lines 8-13): the JSON envelope.  An
absent optional field is `none`. -/
structure CaptionResponse where
  success : Bool
  caption : Option String
  error : Option String
  timestamp : String
  deriving DecidableEq

/-- An HTTP reply sent by the caption router: status code and JSON body. -/
structure HttpReply where
  status : Nat
  body : CaptionResponse
  deriving DecidableEq

namespace CaptionRoute

/-- `validateFile` (caption.route.ts, lines 62-79): missing file, empty buffer
(`!file.buffer || file.buffer.length === 0`), then MIME type against the
allow-list. -/
def validateFile : Option UploadedFile → ValidationResult
  | none => { isValid := false, error := some "No image file provided" }
  | some file =>
    if file.buffer.length == 0 then
      { isValid := false, error := some "Empty file uploaded" }
    else if !(SUPPORTED_IMAGE_TYPES.contains file.mimetype) then
      { isValid := false,
        error := some ("Invalid file type: " ++ file.mimetype ++ ". Supported: "
          ++ String.intercalate ", " SUPPORTED_IMAGE_TYPES) }
    else
      { isValid := true, error := none }

/-- The handler of `POST /api/caption` (caption.route.ts, lines 85-122).  The
combined outcome of `getVisionService()` followed by
`visionService.generateCaption(...)` — both inside the same `try` — is the
`vision` argument; `ts` is the `new Date().toISOString()` value.  The returned
`Bool` records whether control reached the vision-service call.  A validation
failure answers 400; a caught error answers 500 with the error's message; a
caption answers 200 with `success := true`. -/
def postCaption (file : Option UploadedFile) (vision : Except String String)
    (ts : String) : HttpReply × Bool :=
  let validation := validateFile file
  if validation.isValid then
    match vision with
    | Except.ok caption =>
        ({ status := 200,
           body := { success := true, caption := some caption, error := none,
                     timestamp := ts } }, true)
    | Except.error msg =>
        ({ status := 500,
           body := { success := false, caption := none, error := some msg,
                     timestamp := ts } }, true)
  else
    ({ status := 400,
       body := { success := false, caption := none, error := validation.error,
                 timestamp := ts } }, false)

/-- The prompt guard of `POST /api/caption/custom` (caption.route.ts, line
148): `!customPrompt || customPrompt.trim().length === 0`, with `none` for an
absent `prompt` field. -/
def promptMissing : Option String → Bool
  | none => true
  | some p => p == "" || (jsTrim p).length == 0

/-- The handler of `POST /api/caption/custom` (caption.route.ts, lines
128-174): file validation, then the prompt guard, then the vision call
(`generateCaptionWithPrompt`), with the same response construction as
`postCaption`. -/
def postCaptionCustom (file : Option UploadedFile) (prompt : Option String)
    (vision : Except String String) (ts : String) : HttpReply × Bool :=
  let validation := validateFile file
  if validation.isValid then
    if promptMissing prompt then
      ({ status := 400,
         body := { success := false, caption := none,
                   error := some "Custom prompt is required",
                   timestamp := ts } }, false)
    else
      match vision with
      | Except.ok caption =>
          ({ status := 200,
             body := { success := true, caption := some caption, error := none,
                       timestamp := ts } }, true)
      | Except.error msg =>
          ({ status := 500,
             body := { success := false, caption := none, error := some msg,
                       timestamp := ts } }, true)
  else
    ({ status := 400,
       body := { success := false, caption := none, error := validation.error,
                 timestamp := ts } }, false)

/-- An error reaching the router's error middleware: either a `MulterError`
with its `code`, or a plain `Error` carrying only a message (e.g. the
`fileFilter` rejection). -/
inductive MiddlewareError where
  | multerErr (code : String) (message : String)
  | plainErr (message : String)
  deriving DecidableEq

/-- The multer error middleware (caption.route.ts, lines 190-216):
`LIMIT_FILE_SIZE` answers 400 with the fixed size message, any other
`MulterError` answers 400 with `Upload error: ...`, and a non-multer error
answers 500 with `error.message || 'An unexpected error occurred'`. -/
def errorMiddleware (e : MiddlewareError) (ts : String) : HttpReply :=
  match e with
  | MiddlewareError.multerErr code msg =>
      if code == "LIMIT_FILE_SIZE" then
        { status := 400,
          body := { success := false, caption := none,
                    error := some "File size exceeds the 10MB limit",
                    timestamp := ts } }
      else
        { status := 400,
          body := { success := false, caption := none,
                    error := some ("Upload error: " ++ msg),
                    timestamp := ts } }
  | MiddlewareError.plainErr msg =>
      { status := 500,
        body := { success := false, caption := none,
                  error := some (if msg == "" then "An unexpected error occurred"
                                 else msg),
                  timestamp := ts } }

/-- `limits.fileSize = 10 * 1024 * 1024` in the multer configuration
(caption.route.ts, line 38). -/
def maxFileSize : Nat := 10 * 1024 * 1024

/-- Multer's documented `fileSize` limit with the repository's configuration:
a stored file exceeding `maxFileSize` bytes aborts the upload with a
`MulterError` of code `LIMIT_FILE_SIZE` (message `File too large`), which the
router's middleware then answers. -/
def multerSizeCheck (size : Nat) : Option MiddlewareError :=
  if size > maxFileSize then
    some (MiddlewareError.multerErr "LIMIT_FILE_SIZE" "File too large")
  else
    none

/-- The JSON body of `GET /api/caption/health` paired with its status code
(caption.route.ts, lines 180-187). -/
structure HealthReply where
  status : Nat
  statusText : String
  supportedFormats : List String
  maxFileSizeLabel : String
  timestamp : String
  deriving DecidableEq

/-- The process environment visible to the router: the three
`AZURE_OPENAI_*` variables, `none` when unset. -/
structure Env where
  apiKey : Option String
  endpoint : Option String
  modelId : Option String
  deriving DecidableEq

/-- JS truthiness of an environment variable: set and non-empty. -/
def truthy : Option String → Bool
  | none => false
  | some v => !(v == "")

/-- `AzureOpenAIConfig` (types/index.ts, lines 18-22). -/
structure AzureOpenAIConfig where
  apiKey : String
  endpoint : String
  modelId : String
  deriving DecidableEq

/-- `getVisionService` (caption.route.ts, lines 43-57): throws
`Missing required Azure OpenAI environment variables` when any of the three
variables is falsy, otherwise builds the service configuration. -/
def getVisionService (env : Env) : Except String AzureOpenAIConfig :=
  if truthy env.apiKey && truthy env.endpoint && truthy env.modelId then
    Except.ok { apiKey := (env.apiKey).getD "", endpoint := (env.endpoint).getD "",
                modelId := (env.modelId).getD "" }
  else
    Except.error "Missing required Azure OpenAI environment variables"

/-- The handler of `GET /api/caption/health` (caption.route.ts, lines
180-187).  It takes the ambient environment as an argument — the source
handler is free to read `process.env` — and ignores it, answering the fixed
body with status 200. -/
def healthHandler (_env : Env) (ts : String) : HealthReply :=
  { status := 200, statusText := "healthy",
    supportedFormats := SUPPORTED_IMAGE_TYPES, maxFileSizeLabel := "10MB",
    timestamp := ts }

/-- The multer `fileFilter` (caption.route.ts, lines 17-31): an allow-listed
MIME type is accepted (`callback(null, true)`); any other type is rejected by
passing a **plain** `Error` — not a `MulterError` — to the callback, which
multer forwards to the router's error middleware. -/
def fileFilter (file : UploadedFile) : Option MiddlewareError :=
  if SUPPORTED_IMAGE_TYPES.contains file.mimetype then
    none
  else
    some (MiddlewareError.plainErr ("Invalid file type. Supported types: "
      ++ String.intercalate ", " SUPPORTED_IMAGE_TYPES))

/-- The full `POST /api/caption` request pipeline: `upload.single('image')`
runs before the handler — when a file is uploaded, the `fileFilter` and then
the configured `fileSize` limit are applied, and an error at this stage skips
the handler and is answered by the router's error middleware; otherwise the
handler `postCaption` runs (with `req.file` absent when nothing was
uploaded).  The `Bool` again records whether the vision service was
reached. -/
def captionRequest (file : Option UploadedFile) (vision : Except String String)
    (ts : String) : HttpReply × Bool :=
  match file with
  | none => postCaption none vision ts
  | some f =>
    match fileFilter f with
    | some e => (errorMiddleware e ts, false)
    | none =>
      match multerSizeCheck f.buffer.length with
      | some e => (errorMiddleware e ts, false)
      | none => postCaption (some f) vision ts

/-- The full `POST /api/caption/custom` request pipeline: the same multer
stage as `captionRequest`, then the handler `postCaptionCustom`. -/
def captionCustomRequest (file : Option UploadedFile) (prompt : Option String)
    (vision : Except String String) (ts : String) : HttpReply × Bool :=
  match file with
  | none => postCaptionCustom none prompt vision ts
  | some f =>
    match fileFilter f with
    | some e => (errorMiddleware e ts, false)
    | none =>
      match multerSizeCheck f.buffer.length with
      | some e => (errorMiddleware e ts, false)
      | none => postCaptionCustom (some f) prompt vision ts

end CaptionRoute

namespace VisionService

/-- The `message` object of a chat-completion choice: `content` is `none` for
a JSON `null` or absent field. -/
structure ChatMessageOut where
  content : Option String
  deriving DecidableEq

/-- One element of `response.choices`. -/
structure ChatChoice where
  message : Option ChatMessageOut
  deriving DecidableEq

/-- The response object of `client.chat.completions.create`. -/
structure ChatCompletion where
  choices : List ChatChoice
  deriving DecidableEq

/-- `response.choices[0]?.message?.content`: the optional-chaining read. -/
def choiceContent (r : ChatCompletion) : Option String :=
  match r.choices.head? with
  | none => none
  | some c =>
    match c.message with
    | none => none
    | some m => m.content

/-- One attempt of the operation `generateCaption` passes to `withRetry`
(vision.service.ts, lines 65-105).  The network call is the argument: either
the thrown error's message or the API's response object.  On a response, the
handler reads `choices[0]?.message?.content`; `if (!caption)` throws on a
missing **or empty** content (both are falsy); otherwise `caption.trim()` is
returned. -/
def captionAttempt (call : Except String ChatCompletion) : Except String String :=
  match call with
  | Except.error e => Except.error e
  | Except.ok resp =>
    match choiceContent resp with
    | none => Except.error "No caption generated from the AI model"
    | some c =>
      if c == "" then Except.error "No caption generated from the AI model"
      else Except.ok (jsTrim c)

/-- The `.catch` clause of `generateCaption` (vision.service.ts, lines
106-124): rewrite the message by the first matching of the `401`, `404`,
`429` substring tests, else prefix `Failed to generate caption: `. -/
def mapCaptionError (msg : String) : String :=
  if strContains msg "401" then "Invalid API key or unauthorized access"
  else if strContains msg "404" then "Model deployment not found"
  else if strContains msg "429" then "API ถูกจำกัด กรุณารอสักครู่"
  else "Failed to generate caption: " ++ msg

/-- `VisionService.generateCaption` (vision.service.ts, lines 64-125):
`withRetry` around `captionAttempt`, then the `.catch` error mapping.
`calls` gives the outcome of the outbound API call on each attempt; the image
buffer and MIME type only shape the outbound payload and are not part of the
observable result. -/
def generateCaption (calls : Nat → Except String ChatCompletion) :
    Except String String :=
  match (withRetry (fun n => captionAttempt (calls n))).result with
  | Except.ok c => Except.ok c
  | Except.error e => Except.error (mapCaptionError e)

/-- One attempt of the operation `generateCaptionWithPrompt` passes to
`withRetry` (vision.service.ts, lines 139-175); the empty-content error reads
`No response generated from the AI model`. -/
def promptAttempt (call : Except String ChatCompletion) : Except String String :=
  match call with
  | Except.error e => Except.error e
  | Except.ok resp =>
    match choiceContent resp with
    | none => Except.error "No response generated from the AI model"
    | some c =>
      if c == "" then Except.error "No response generated from the AI model"
      else Except.ok (jsTrim c)

/-- `VisionService.generateCaptionWithPrompt` (vision.service.ts, lines
134-185): `withRetry` around `promptAttempt`, then the `.catch` clause, which
only rewrites messages containing `429` (to the fixed Thai notice) and
rethrows every other error unchanged.  `customPrompt` only shapes the
outbound payload. -/
def generateCaptionWithPrompt (_customPrompt : String)
    (calls : Nat → Except String ChatCompletion) : Except String String :=
  match (withRetry (fun n => promptAttempt (calls n))).result with
  | Except.ok c => Except.ok c
  | Except.error e =>
      Except.error (if strContains e "429" then "API ถูกจำกัด กรุณารอสักครู่" else e)

end VisionService

/-! ## Helper lemmas about the retry loop -/

/-- One unfolding step of the retry loop while iterations remain. -/
theorem withRetryGo_step {T : Type} (op : Nat → Except String T)
    (fuel attempt : Nat) (le : Option String) :
    VisionService.withRetryGo op (fuel + 1) attempt le =
      match op attempt with
      | Except.ok v =>
          { result := Except.ok v, attempts := attempt + 1, delays := [] }
      | Except.error e =>
          if VisionService.isRateLimit e &&
              decide (attempt < VisionService.maxRetries - 1) then
            let rest := VisionService.withRetryGo op fuel (attempt + 1) (some e)
            { result := rest.result, attempts := rest.attempts,
              delays := VisionService.baseDelay * 2 ^ attempt :: rest.delays }
          else
            { result := Except.error e, attempts := attempt + 1, delays := [] } :=
  rfl

/-- The trace's invocation count never falls below the starting loop index. -/
theorem withRetryGo_attempts_lower {T : Type} (op : Nat → Except String T) :
    ∀ fuel attempt le, attempt ≤ (VisionService.withRetryGo op fuel attempt le).attempts := by
  intro fuel
  induction fuel with
  | zero => intro attempt le; simp [VisionService.withRetryGo]
  | succ n ih =>
    intro attempt le
    rw [withRetryGo_step]
    split
    · exact Nat.le_succ attempt
    · rename_i e _
      split
      · exact le_trans (Nat.le_succ attempt) (ih (attempt + 1) (some e))
      · exact Nat.le_succ attempt

/-- With at least one loop iteration remaining, at least one further invocation
happens. -/
theorem withRetryGo_attempts_succ {T : Type} (op : Nat → Except String T)
    (fuel attempt : Nat) (le : Option String) :
    attempt + 1 ≤ (VisionService.withRetryGo op (fuel + 1) attempt le).attempts := by
  rw [withRetryGo_step]
  split
  · exact Nat.le_refl _
  · rename_i e _
    split
    · exact withRetryGo_attempts_lower op fuel (attempt + 1) (some e)
    · exact Nat.le_refl _

/-! ## C1 — retry exhaustion on persistent rate-limit errors -/

/-- C1 (counterexample): with an operation that fails with a rate-limit error
on every invocation, `withRetry` performs 3 attempts but awaits only the two
delays 1000 ms and 2000 ms — the 4000 ms (4 s) delay claimed by the schedule
"1s, 2s, 4s" is never awaited. -/
theorem c1_counterexample :
    (VisionService.withRetry
      (fun _ => (Except.error "429 Too Many Requests" : Except String String))).attempts = 3 ∧
    (VisionService.withRetry
      (fun _ => (Except.error "429 Too Many Requests" : Except String String))).delays =
      [1000, 2000] ∧
    4000 ∉ (VisionService.withRetry
      (fun _ => (Except.error "429 Too Many Requests" : Except String String))).delays := by
  refine ⟨by decide, by decide, by decide⟩

/-- C1 (amended): if every invocation fails with an error the rate-limit test
accepts, `withRetry` performs exactly 3 attempts, awaits the delays 1 s then
2 s before the second and third attempts (no further delay occurs), and
propagates the error of the last attempt. -/
theorem c1_retry_exhaustion {T : Type} (op : Nat → Except String T) (e : Nat → String)
    (herr : ∀ n, op n = Except.error (e n))
    (hrl : ∀ n, VisionService.isRateLimit (e n) = true) :
    (VisionService.withRetry op).attempts = 3 ∧
    (VisionService.withRetry op).delays = [1000, 2000] ∧
    (VisionService.withRetry op).result = Except.error (e 2) := by
  simp [VisionService.withRetry, VisionService.withRetryGo, VisionService.maxRetries,
    VisionService.baseDelay, herr 0, herr 1, herr 2, hrl 0, hrl 1, hrl 2]

/-- C1 (witness): the amended statement at the operation that always fails
with message `429 Too Many Requests`. -/
theorem c1_retry_exhaustion_witness :
    (VisionService.withRetry
      (fun _ => (Except.error "429 Too Many Requests" : Except String Nat))).attempts = 3 ∧
    (VisionService.withRetry
      (fun _ => (Except.error "429 Too Many Requests" : Except String Nat))).delays =
      [1000, 2000] ∧
    (VisionService.withRetry
      (fun _ => (Except.error "429 Too Many Requests" : Except String Nat))).result =
      Except.error "429 Too Many Requests" :=
  c1_retry_exhaustion (fun _ => Except.error "429 Too Many Requests")
    (fun _ => "429 Too Many Requests") (fun _ => rfl)
    (fun _ => show VisionService.isRateLimit "429 Too Many Requests" = true by decide)

/-! ## C2 — success passes through; non-rate-limit errors abort immediately -/

/-- C2: at any reachable attempt `i` (every earlier invocation failed with a
rate-limit error), a successful invocation's value is returned unchanged with
no further invocation, and a failure the rate-limit test rejects is propagated
unchanged with no further invocation and no further delay. -/
theorem c2_passthrough {T : Type} (op : Nat → Except String T) (i : Nat)
    (hi : i < VisionService.maxRetries)
    (hprev : ∀ j, j < i → ∃ e, op j = Except.error e ∧
      VisionService.isRateLimit e = true) :
    (∀ v, op i = Except.ok v →
      (VisionService.withRetry op).result = Except.ok v ∧
      (VisionService.withRetry op).attempts = i + 1 ∧
      (VisionService.withRetry op).delays.length = i) ∧
    (∀ e, op i = Except.error e → VisionService.isRateLimit e = false →
      (VisionService.withRetry op).result = Except.error e ∧
      (VisionService.withRetry op).attempts = i + 1 ∧
      (VisionService.withRetry op).delays.length = i) := by
  have hi3 : i < 3 := hi
  interval_cases i
  · constructor
    · intro v hv
      simp [VisionService.withRetry, VisionService.withRetryGo, hv]
    · intro e he hre
      simp [VisionService.withRetry, VisionService.withRetryGo, he, hre]
  · obtain ⟨e0, he0, hr0⟩ := hprev 0 (by norm_num)
    constructor
    · intro v hv
      simp [VisionService.withRetry, VisionService.withRetryGo,
        VisionService.maxRetries, he0, hr0, hv]
    · intro e he hre
      simp [VisionService.withRetry, VisionService.withRetryGo,
        VisionService.maxRetries, he0, hr0, he, hre]
  · obtain ⟨e0, he0, hr0⟩ := hprev 0 (by norm_num)
    obtain ⟨e1, he1, hr1⟩ := hprev 1 (by norm_num)
    constructor
    · intro v hv
      simp [VisionService.withRetry, VisionService.withRetryGo,
        VisionService.maxRetries, he0, hr0, he1, hr1, hv]
    · intro e he hre
      simp [VisionService.withRetry, VisionService.withRetryGo,
        VisionService.maxRetries, he0, hr0, he1, hr1, he, hre]

/-- C2 (witness): a rate-limited first attempt followed by a success returns
the success after 2 attempts; an operation failing at once with a
non-rate-limit message is propagated after a single attempt. -/
theorem c2_passthrough_witness :
    (VisionService.withRetry
      (fun n => if n == 0 then Except.error "HTTP 429" else Except.ok 7)).result =
      Except.ok 7 ∧
    (VisionService.withRetry
      (fun n => if n == 0 then Except.error "HTTP 429" else Except.ok 7)).attempts = 2 ∧
    (VisionService.withRetry
      (fun _ => (Except.error "bad request" : Except String Nat))).result =
      Except.error "bad request" ∧
    (VisionService.withRetry
      (fun _ => (Except.error "bad request" : Except String Nat))).attempts = 1 := by
  have h1 := (c2_passthrough
    (fun n => if n == 0 then Except.error "HTTP 429" else Except.ok 7) 1
    (by decide)
    (fun j hj => by
      interval_cases j
      exact ⟨"HTTP 429", rfl, by decide⟩)).1 7 rfl
  have h2 := (c2_passthrough
    (fun _ => (Except.error "bad request" : Except String Nat)) 0
    (by decide)
    (fun j hj => absurd hj (by omega))).2 "bad request" rfl (by decide)
  exact ⟨h1.1, h1.2.1, h2.1, h2.2.1⟩

/-! ## C8 — rate-limit detection is purely textual -/

/-- C8: after a failed first invocation, a retry happens (a second invocation
is performed) if and only if the error's message contains the substring `429`
or its lower-casing contains the substring `rate limit`.  The embedding of the
retry loop carries nothing but the error message — mirroring the source, which
consults only `lastError.message` and never a status field. -/
theorem c8_textual_detection {T : Type} (op : Nat → Except String T) (e : String)
    (h : op 0 = Except.error e) :
    2 ≤ (VisionService.withRetry op).attempts ↔
      (strContains e "429" = true ∨
        strContains (strToLower e) "rate limit" = true) := by
  have hstep : VisionService.withRetry op =
      (if VisionService.isRateLimit e &&
          decide (0 < VisionService.maxRetries - 1) then
        let rest := VisionService.withRetryGo op 2 1 (some e)
        { result := rest.result, attempts := rest.attempts,
          delays := VisionService.baseDelay * 2 ^ 0 :: rest.delays }
      else
        { result := Except.error e, attempts := 0 + 1, delays := [] }) := by
    rw [VisionService.withRetry,
      show VisionService.maxRetries = 2 + 1 from rfl, withRetryGo_step, h]
    rfl
  rw [hstep]
  by_cases hr : VisionService.isRateLimit e = true
  · have hrhs : strContains e "429" = true ∨
        strContains (strToLower e) "rate limit" = true := by
      simpa [VisionService.isRateLimit, Bool.or_eq_true] using hr
    rw [if_pos (by simp [hr, VisionService.maxRetries])]
    exact iff_of_true (withRetryGo_attempts_succ op 1 1 (some e)) hrhs
  · have hrhs : ¬(strContains e "429" = true ∨
        strContains (strToLower e) "rate limit" = true) := by
      simpa [VisionService.isRateLimit, Bool.or_eq_true] using hr
    rw [if_neg (by simp [hr])]
    exact iff_of_false (by simp) hrhs

/-- C8 (witness): an error whose message merely mentions `4290` — the digits
`429` as text, not a status — triggers a retry. -/
theorem c8_textual_detection_witness :
    2 ≤ (VisionService.withRetry
      (fun _ => (Except.error "received 4290 bytes" : Except String Nat))).attempts :=
  (c8_textual_detection
    (fun _ => (Except.error "received 4290 bytes" : Except String Nat))
    "received 4290 bytes" rfl).mpr (Or.inl (by decide))

/-! ## C3 — successful caption responses -/

/-- C3 (counterexample): caption generation can succeed with an **empty**
caption.  When the model answers a whitespace-only content (`" "` is truthy in
JS, so the `!caption` guard passes), `generateCaption` returns `"".trim()`s
result, and `POST /api/caption` answers 200 with `success:true` and the empty
caption string — refuting the claimed non-emptiness. -/
theorem c3_counterexample :
    (CaptionRoute.postCaption (some { buffer := [137], mimetype := "image/png" })
        (VisionService.generateCaption (fun _ =>
          Except.ok { choices := [{ message := some { content := some " " } }] }))
        "2026-01-01T00:00:00.000Z").1 =
      { status := 200,
        body := { success := true, caption := some "", error := none,
                  timestamp := "2026-01-01T00:00:00.000Z" } } ∧
    ((CaptionRoute.postCaption (some { buffer := [137], mimetype := "image/png" })
        (VisionService.generateCaption (fun _ =>
          Except.ok { choices := [{ message := some { content := some " " } }] }))
        "2026-01-01T00:00:00.000Z").1.body.caption.getD "x").length = 0 := by
  refine ⟨by decide, by decide⟩

/-- C3 (amended): on every request to either `POST` endpoint on which the
caption generation succeeds, the response is HTTP 200 with `success:true` and
a `caption` field holding exactly the generated string — which is non-empty
except when the model's content trims to the empty string. -/
theorem c3_success_response (file : Option UploadedFile) (prompt : Option String)
    (c ts : String) (hv : (CaptionRoute.validateFile file).isValid = true)
    (hp : CaptionRoute.promptMissing prompt = false) :
    CaptionRoute.postCaption file (Except.ok c) ts =
      ({ status := 200,
         body := { success := true, caption := some c, error := none,
                   timestamp := ts } }, true) ∧
    CaptionRoute.postCaptionCustom file prompt (Except.ok c) ts =
      ({ status := 200,
         body := { success := true, caption := some c, error := none,
                   timestamp := ts } }, true) := by
  constructor
  · simp [CaptionRoute.postCaption, hv]
  · simp [CaptionRoute.postCaptionCustom, hv, hp]

/-- C3 (witness): the amended statement at a valid JPEG upload, the prompt
`Describe`, and the generated caption `A cat.`. -/
theorem c3_success_response_witness :
    CaptionRoute.postCaption (some { buffer := [255], mimetype := "image/jpeg" })
      (Except.ok "A cat.") "t" =
      ({ status := 200,
         body := { success := true, caption := some "A cat.", error := none,
                   timestamp := "t" } }, true) ∧
    CaptionRoute.postCaptionCustom (some { buffer := [255], mimetype := "image/jpeg" })
      (some "Describe") (Except.ok "A cat.") "t" =
      ({ status := 200,
         body := { success := true, caption := some "A cat.", error := none,
                   timestamp := "t" } }, true) :=
  c3_success_response (some { buffer := [255], mimetype := "image/jpeg" })
    (some "Describe") "A cat." "t" (by decide) (by decide)

/-! ## C4 — file validation failures -/

/-- C4 (counterexample): a non-allow-listed MIME type never reaches the
handler's `validateFile` — multer's `fileFilter` rejects it with a plain
`Error`, which fails the middleware's `instanceof multer.MulterError` test
and is answered **500**, not the claimed 400, on both endpoints. -/
theorem c4_counterexample :
    (CaptionRoute.captionRequest (some { buffer := [1], mimetype := "text/plain" })
        (Except.ok "c") "t").1.status = 500 ∧
    (CaptionRoute.captionRequest (some { buffer := [1], mimetype := "text/plain" })
        (Except.ok "c") "t").1.status ≠ 400 ∧
    (CaptionRoute.captionRequest (some { buffer := [1], mimetype := "text/plain" })
        (Except.ok "c") "t").1.body.success = false ∧
    (CaptionRoute.captionRequest (some { buffer := [1], mimetype := "text/plain" })
        (Except.ok "c") "t").2 = false ∧
    (CaptionRoute.captionCustomRequest (some { buffer := [1], mimetype := "text/plain" })
        (some "p") (Except.ok "c") "t").1.status = 500 ∧
    (CaptionRoute.captionCustomRequest (some { buffer := [1], mimetype := "text/plain" })
        (some "p") (Except.ok "c") "t").1.status ≠ 400 := by
  refine ⟨by decide, by decide, by decide, by decide, by decide, by decide⟩

/-- C4 (amended): on either endpoint's full request pipeline, a missing file
or an empty buffer (of an accepted MIME type) is answered 400 with
`success:false` and an error message by the handler's `validateFile`; a file
with a MIME type outside the allow-list is rejected earlier, by multer's
`fileFilter`, whose plain `Error` the error middleware answers with **500**,
`success:false` and an error message.  In every case the vision service is
never invoked. -/
theorem c4_validation_routing (f : UploadedFile) (prompt : Option String)
    (vision : Except String String) (ts : String) :
    ((CaptionRoute.captionRequest none vision ts).1.status = 400 ∧
     (CaptionRoute.captionRequest none vision ts).1.body.success = false ∧
     (CaptionRoute.captionRequest none vision ts).1.body.error.isSome = true ∧
     (CaptionRoute.captionRequest none vision ts).2 = false ∧
     (CaptionRoute.captionCustomRequest none prompt vision ts).1.status = 400 ∧
     (CaptionRoute.captionCustomRequest none prompt vision ts).1.body.success = false ∧
     (CaptionRoute.captionCustomRequest none prompt vision ts).1.body.error.isSome = true ∧
     (CaptionRoute.captionCustomRequest none prompt vision ts).2 = false) ∧
    (f.buffer.length = 0 → SUPPORTED_IMAGE_TYPES.contains f.mimetype = true →
     (CaptionRoute.captionRequest (some f) vision ts).1.status = 400 ∧
     (CaptionRoute.captionRequest (some f) vision ts).1.body.success = false ∧
     (CaptionRoute.captionRequest (some f) vision ts).1.body.error.isSome = true ∧
     (CaptionRoute.captionRequest (some f) vision ts).2 = false ∧
     (CaptionRoute.captionCustomRequest (some f) prompt vision ts).1.status = 400 ∧
     (CaptionRoute.captionCustomRequest (some f) prompt vision ts).1.body.success = false ∧
     (CaptionRoute.captionCustomRequest (some f) prompt vision ts).1.body.error.isSome = true ∧
     (CaptionRoute.captionCustomRequest (some f) prompt vision ts).2 = false) ∧
    (SUPPORTED_IMAGE_TYPES.contains f.mimetype = false →
     (CaptionRoute.captionRequest (some f) vision ts).1.status = 500 ∧
     (CaptionRoute.captionRequest (some f) vision ts).1.body.success = false ∧
     (CaptionRoute.captionRequest (some f) vision ts).1.body.error.isSome = true ∧
     (CaptionRoute.captionRequest (some f) vision ts).2 = false ∧
     (CaptionRoute.captionCustomRequest (some f) prompt vision ts).1.status = 500 ∧
     (CaptionRoute.captionCustomRequest (some f) prompt vision ts).1.body.success = false ∧
     (CaptionRoute.captionCustomRequest (some f) prompt vision ts).1.body.error.isSome = true ∧
     (CaptionRoute.captionCustomRequest (some f) prompt vision ts).2 = false) := by
  refine ⟨?_, ?_, ?_⟩
  · simp [CaptionRoute.captionRequest, CaptionRoute.captionCustomRequest,
      CaptionRoute.postCaption, CaptionRoute.postCaptionCustom,
      CaptionRoute.validateFile]
  · intro hlen hmime
    have hm : f.mimetype ∈ SUPPORTED_IMAGE_TYPES := by simpa using hmime
    simp [CaptionRoute.captionRequest, CaptionRoute.captionCustomRequest,
      CaptionRoute.fileFilter, hm, CaptionRoute.multerSizeCheck, hlen,
      CaptionRoute.maxFileSize, CaptionRoute.postCaption,
      CaptionRoute.postCaptionCustom, CaptionRoute.validateFile]
  · intro hmime
    have hm : f.mimetype ∉ SUPPORTED_IMAGE_TYPES := by simpa using hmime
    simp [CaptionRoute.captionRequest, CaptionRoute.captionCustomRequest,
      CaptionRoute.fileFilter, hm, CaptionRoute.errorMiddleware]

/-- C4 (witness): the amended statement at an empty PNG upload (the 400 path)
and at a plain-text upload (the 500 fileFilter path). -/
theorem c4_validation_routing_witness :
    ((CaptionRoute.captionRequest (some { buffer := [], mimetype := "image/png" })
        (Except.ok "c") "t").1.status = 400 ∧
     (CaptionRoute.captionRequest (some { buffer := [], mimetype := "image/png" })
        (Except.ok "c") "t").2 = false) ∧
    ((CaptionRoute.captionRequest (some { buffer := [2], mimetype := "text/plain" })
        (Except.ok "c") "t").1.status = 500 ∧
     (CaptionRoute.captionRequest (some { buffer := [2], mimetype := "text/plain" })
        (Except.ok "c") "t").2 = false) := by
  have h1 := (c4_validation_routing { buffer := [], mimetype := "image/png" }
    (some "p") (Except.ok "c") "t").2.1 (by decide) (by decide)
  have h2 := (c4_validation_routing { buffer := [2], mimetype := "text/plain" }
    (some "p") (Except.ok "c") "t").2.2 (by decide)
  exact ⟨⟨h1.1, h1.2.2.2.1⟩, ⟨h2.1, h2.2.2.2.1⟩⟩

/-! ## C5 — upstream failures and the size ceiling -/

/-- C5: with a valid upload, any failure of the vision-service call makes both
`POST` endpoints answer 500 with `success:false` and the error's message; the
specific upstream failures are mapped by `generateCaption` to descriptive
messages (auth 401, not-found 404, and — after the retries are exhausted —
rate-limit 429); and an upload whose size exceeds the 10MB ceiling
(`10 * 1024 * 1024` bytes) raises multer's `LIMIT_FILE_SIZE`, which the error
middleware answers with 400, `success:false` and an error message. -/
theorem c5_error_mapping (f : UploadedFile) (prompt : Option String)
    (msg ts : String) (sz : Nat)
    (hv : (CaptionRoute.validateFile (some f)).isValid = true)
    (hp : CaptionRoute.promptMissing prompt = false)
    (hsz : CaptionRoute.maxFileSize < sz) :
    (CaptionRoute.postCaption (some f) (Except.error msg) ts).1 =
      { status := 500,
        body := { success := false, caption := none, error := some msg,
                  timestamp := ts } } ∧
    (CaptionRoute.postCaptionCustom (some f) prompt (Except.error msg) ts).1 =
      { status := 500,
        body := { success := false, caption := none, error := some msg,
                  timestamp := ts } } ∧
    VisionService.generateCaption (fun _ => Except.error "401 Unauthorized") =
      Except.error "Invalid API key or unauthorized access" ∧
    VisionService.generateCaption (fun _ => Except.error "404 Not Found") =
      Except.error "Model deployment not found" ∧
    VisionService.generateCaption (fun _ => Except.error "429 Too Many Requests") =
      Except.error "API ถูกจำกัด กรุณารอสักครู่" ∧
    CaptionRoute.multerSizeCheck sz =
      some (CaptionRoute.MiddlewareError.multerErr "LIMIT_FILE_SIZE" "File too large") ∧
    CaptionRoute.errorMiddleware
        (CaptionRoute.MiddlewareError.multerErr "LIMIT_FILE_SIZE" "File too large") ts =
      { status := 400,
        body := { success := false, caption := none,
                  error := some "File size exceeds the 10MB limit",
                  timestamp := ts } } := by
  refine ⟨?_, ?_, by decide, by decide, by decide, ?_, ?_⟩
  · simp [CaptionRoute.postCaption, hv]
  · simp [CaptionRoute.postCaptionCustom, hv, hp]
  · simp [CaptionRoute.multerSizeCheck, hsz]
  · simp [CaptionRoute.errorMiddleware]

/-- C5 (witness): the statement at a valid PNG upload, the prompt `Why?`, the
upstream message `boom`, and an 11MB upload size. -/
theorem c5_error_mapping_witness :
    (CaptionRoute.postCaption (some { buffer := [1], mimetype := "image/png" })
        (Except.error "boom") "t").1 =
      { status := 500,
        body := { success := false, caption := none, error := some "boom",
                  timestamp := "t" } } ∧
    (CaptionRoute.postCaptionCustom (some { buffer := [1], mimetype := "image/png" })
        (some "Why?") (Except.error "boom") "t").1 =
      { status := 500,
        body := { success := false, caption := none, error := some "boom",
                  timestamp := "t" } } ∧
    VisionService.generateCaption (fun _ => Except.error "401 Unauthorized") =
      Except.error "Invalid API key or unauthorized access" ∧
    VisionService.generateCaption (fun _ => Except.error "404 Not Found") =
      Except.error "Model deployment not found" ∧
    VisionService.generateCaption (fun _ => Except.error "429 Too Many Requests") =
      Except.error "API ถูกจำกัด กรุณารอสักครู่" ∧
    CaptionRoute.multerSizeCheck (11 * 1024 * 1024) =
      some (CaptionRoute.MiddlewareError.multerErr "LIMIT_FILE_SIZE" "File too large") ∧
    CaptionRoute.errorMiddleware
        (CaptionRoute.MiddlewareError.multerErr "LIMIT_FILE_SIZE" "File too large") "t" =
      { status := 400,
        body := { success := false, caption := none,
                  error := some "File size exceeds the 10MB limit",
                  timestamp := "t" } } :=
  c5_error_mapping { buffer := [1], mimetype := "image/png" } (some "Why?")
    "boom" "t" (11 * 1024 * 1024) (by decide) (by decide) (by decide)

/-! ## C6 — custom-prompt validation -/

/-- C6: on `POST /api/caption/custom` with a valid image but a missing, empty
or whitespace-only prompt, the handler answers 400 with `success:false` and
the message `Custom prompt is required`, without reaching the vision
service. -/
theorem c6_prompt_required (f : UploadedFile) (prompt : Option String)
    (vision : Except String String) (ts : String)
    (hv : (CaptionRoute.validateFile (some f)).isValid = true)
    (hp : prompt = none ∨ ∃ p, prompt = some p ∧ jsTrim p = "") :
    (CaptionRoute.postCaptionCustom (some f) prompt vision ts).1 =
      { status := 400,
        body := { success := false, caption := none,
                  error := some "Custom prompt is required", timestamp := ts } } ∧
    (CaptionRoute.postCaptionCustom (some f) prompt vision ts).2 = false := by
  have hm : CaptionRoute.promptMissing prompt = true := by
    rcases hp with rfl | ⟨p, rfl, hp'⟩
    · rfl
    · simp [CaptionRoute.promptMissing, hp']
  constructor
  · simp [CaptionRoute.postCaptionCustom, hv, hm]
  · simp [CaptionRoute.postCaptionCustom, hv, hm]

/-- C6 (witness): the statement at a valid PNG upload and the whitespace-only
prompt `"   "`. -/
theorem c6_prompt_required_witness :
    (CaptionRoute.postCaptionCustom (some { buffer := [1], mimetype := "image/png" })
        (some "   ") (Except.ok "c") "t").1 =
      { status := 400,
        body := { success := false, caption := none,
                  error := some "Custom prompt is required", timestamp := "t" } } ∧
    (CaptionRoute.postCaptionCustom (some { buffer := [1], mimetype := "image/png" })
        (some "   ") (Except.ok "c") "t").2 = false :=
  c6_prompt_required { buffer := [1], mimetype := "image/png" } (some "   ")
    (Except.ok "c") "t" (by decide) (Or.inr ⟨"   ", rfl, by decide⟩)

/-! ## C7 — caption extraction and trimming -/

/-- C7: for every model response, `generateCaption` and
`generateCaptionWithPrompt` return the first choice's message content with
leading and trailing whitespace trimmed, and fail with an error when the model
returns no (or JS-falsy empty) content — the no-content error of
`generateCaption` reaching the caller through its `.catch` clause with the
`Failed to generate caption: ` prefix. -/
theorem c7_extract_and_trim (r : VisionService.ChatCompletion) (c p : String) :
    (VisionService.choiceContent r = some c → c ≠ "" →
      VisionService.generateCaption (fun _ => Except.ok r) =
        Except.ok (jsTrim c) ∧
      VisionService.generateCaptionWithPrompt p (fun _ => Except.ok r) =
        Except.ok (jsTrim c)) ∧
    (VisionService.choiceContent r = none ∨ VisionService.choiceContent r = some "" →
      VisionService.generateCaption (fun _ => Except.ok r) =
        Except.error "Failed to generate caption: No caption generated from the AI model" ∧
      VisionService.generateCaptionWithPrompt p (fun _ => Except.ok r) =
        Except.error "No response generated from the AI model") := by
  constructor
  · intro hc hne
    have h1 : VisionService.captionAttempt (Except.ok r) = Except.ok (jsTrim c) := by
      simp [VisionService.captionAttempt, hc, hne]
    have h2 : VisionService.promptAttempt (Except.ok r) = Except.ok (jsTrim c) := by
      simp [VisionService.promptAttempt, hc, hne]
    constructor
    · rw [VisionService.generateCaption,
        funext (fun n => h1 : ∀ n : Nat,
          VisionService.captionAttempt ((fun _ => Except.ok r) n) = Except.ok (jsTrim c))]
      simp [VisionService.withRetry, VisionService.withRetryGo]
    · rw [VisionService.generateCaptionWithPrompt,
        funext (fun n => h2 : ∀ n : Nat,
          VisionService.promptAttempt ((fun _ => Except.ok r) n) = Except.ok (jsTrim c))]
      simp [VisionService.withRetry, VisionService.withRetryGo]
  · intro hc
    have h1 : VisionService.captionAttempt (Except.ok r) =
        Except.error "No caption generated from the AI model" := by
      rcases hc with hc | hc <;> simp [VisionService.captionAttempt, hc]
    have h2 : VisionService.promptAttempt (Except.ok r) =
        Except.error "No response generated from the AI model" := by
      rcases hc with hc | hc <;> simp [VisionService.promptAttempt, hc]
    constructor
    · rw [VisionService.generateCaption,
        funext (fun n => h1 : ∀ n : Nat,
          VisionService.captionAttempt ((fun _ => Except.ok r) n) =
            Except.error "No caption generated from the AI model")]
      decide
    · rw [VisionService.generateCaptionWithPrompt,
        funext (fun n => h2 : ∀ n : Nat,
          VisionService.promptAttempt ((fun _ => Except.ok r) n) =
            Except.error "No response generated from the AI model")]
      decide

/-- C7 (witness): a response with content `"  A cat.  "` yields the trimmed
caption; a response with no choices yields the no-content errors. -/
theorem c7_extract_and_trim_witness :
    VisionService.generateCaption (fun _ =>
        Except.ok { choices := [{ message := some { content := some "  A cat.  " } }] }) =
      Except.ok "A cat." ∧
    VisionService.generateCaptionWithPrompt "p" (fun _ =>
        Except.ok { choices := [] }) =
      Except.error "No response generated from the AI model" := by
  have h1 := (c7_extract_and_trim
    { choices := [{ message := some { content := some "  A cat.  " } }] }
    "  A cat.  " "q").1 (by decide) (by decide)
  have h2 := (c7_extract_and_trim { choices := [] } "x" "p").2 (Or.inl (by decide))
  exact ⟨by rw [h1.1]; decide, h2.2⟩

/-! ## C9 — response-envelope invariant -/

/-- C9: every JSON reply built by the two `POST` handlers or the error
middleware carries the boolean `success` flag and the request timestamp;
`success` is `true` exactly on status 200; a `caption` field is present only
on success, and an `error` field only on failure. -/
theorem c9_envelope_invariant (file : Option UploadedFile) (prompt : Option String)
    (vision : Except String String) (e : CaptionRoute.MiddlewareError) (ts : String) :
    (((CaptionRoute.postCaption file vision ts).1.body.success = true ↔
        (CaptionRoute.postCaption file vision ts).1.status = 200) ∧
      ((CaptionRoute.postCaption file vision ts).1.body.caption.isSome = true →
        (CaptionRoute.postCaption file vision ts).1.body.success = true) ∧
      ((CaptionRoute.postCaption file vision ts).1.body.error.isSome = true →
        (CaptionRoute.postCaption file vision ts).1.body.success = false) ∧
      (CaptionRoute.postCaption file vision ts).1.body.timestamp = ts) ∧
    (((CaptionRoute.postCaptionCustom file prompt vision ts).1.body.success = true ↔
        (CaptionRoute.postCaptionCustom file prompt vision ts).1.status = 200) ∧
      ((CaptionRoute.postCaptionCustom file prompt vision ts).1.body.caption.isSome = true →
        (CaptionRoute.postCaptionCustom file prompt vision ts).1.body.success = true) ∧
      ((CaptionRoute.postCaptionCustom file prompt vision ts).1.body.error.isSome = true →
        (CaptionRoute.postCaptionCustom file prompt vision ts).1.body.success = false) ∧
      (CaptionRoute.postCaptionCustom file prompt vision ts).1.body.timestamp = ts) ∧
    (((CaptionRoute.errorMiddleware e ts).body.success = true ↔
        (CaptionRoute.errorMiddleware e ts).status = 200) ∧
      ((CaptionRoute.errorMiddleware e ts).body.caption.isSome = true →
        (CaptionRoute.errorMiddleware e ts).body.success = true) ∧
      ((CaptionRoute.errorMiddleware e ts).body.error.isSome = true →
        (CaptionRoute.errorMiddleware e ts).body.success = false) ∧
      (CaptionRoute.errorMiddleware e ts).body.timestamp = ts) := by
  refine ⟨?_, ?_, ?_⟩
  · by_cases hval : (CaptionRoute.validateFile file).isValid = true
    · cases vision <;> simp [CaptionRoute.postCaption, hval]
    · simp [CaptionRoute.postCaption, hval]
  · by_cases hval : (CaptionRoute.validateFile file).isValid = true
    · by_cases hm : CaptionRoute.promptMissing prompt = true
      · simp [CaptionRoute.postCaptionCustom, hval, hm]
      · cases vision <;> simp [CaptionRoute.postCaptionCustom, hval, hm]
    · simp [CaptionRoute.postCaptionCustom, hval]
  · cases e with
    | multerErr code msg =>
        by_cases hc : code = "LIMIT_FILE_SIZE" <;>
          simp [CaptionRoute.errorMiddleware, hc]
    | plainErr msg => simp [CaptionRoute.errorMiddleware]

/-- C9 (witness): the invariant at a missing-file request and a plain
middleware error, with the failure implication discharged on the middleware
reply. -/
theorem c9_envelope_invariant_witness :
    ((CaptionRoute.postCaption none (Except.ok "c") "t").1.body.success = true ↔
      (CaptionRoute.postCaption none (Except.ok "c") "t").1.status = 200) ∧
    (CaptionRoute.errorMiddleware (CaptionRoute.MiddlewareError.plainErr "boom") "t").body.success
      = false :=
  ⟨(c9_envelope_invariant none none (Except.ok "c")
      (CaptionRoute.MiddlewareError.plainErr "boom") "t").1.1,
   (c9_envelope_invariant none none (Except.ok "c")
      (CaptionRoute.MiddlewareError.plainErr "boom") "t").2.2.2.2.1 (by decide)⟩

/-! ## C10 — health endpoint ignores configuration -/

/-- C10: the health handler answers 200 with status text `healthy` for every
environment — its reply does not depend on the `AZURE_OPENAI_*` variables at
all — while a missing (or empty) variable makes `getVisionService` fail, and
that failure surfaces on a caption request as the 500 error response carrying
`Missing required Azure OpenAI environment variables`. -/
theorem c10_health_ignores_config (env env2 : CaptionRoute.Env) (f : UploadedFile)
    (ts : String)
    (hmiss : CaptionRoute.truthy env.apiKey = false ∨
      CaptionRoute.truthy env.endpoint = false ∨
      CaptionRoute.truthy env.modelId = false)
    (hv : (CaptionRoute.validateFile (some f)).isValid = true) :
    CaptionRoute.healthHandler env ts =
      { status := 200, statusText := "healthy",
        supportedFormats := SUPPORTED_IMAGE_TYPES, maxFileSizeLabel := "10MB",
        timestamp := ts } ∧
    CaptionRoute.healthHandler env ts = CaptionRoute.healthHandler env2 ts ∧
    CaptionRoute.getVisionService env =
      Except.error "Missing required Azure OpenAI environment variables" ∧
    (CaptionRoute.postCaption (some f)
        (Except.error "Missing required Azure OpenAI environment variables") ts).1 =
      { status := 500,
        body := { success := false, caption := none,
                  error := some "Missing required Azure OpenAI environment variables",
                  timestamp := ts } } := by
  refine ⟨rfl, rfl, ?_, ?_⟩
  · rcases hmiss with h | h | h <;> simp [CaptionRoute.getVisionService, h]
  · simp [CaptionRoute.postCaption, hv]

/-- C10 (witness): the statement at an environment missing the API key and a
valid GIF upload. -/
theorem c10_health_ignores_config_witness :
    CaptionRoute.healthHandler { apiKey := none, endpoint := some "e", modelId := some "m" } "t" =
      { status := 200, statusText := "healthy",
        supportedFormats := SUPPORTED_IMAGE_TYPES, maxFileSizeLabel := "10MB",
        timestamp := "t" } ∧
    CaptionRoute.healthHandler { apiKey := none, endpoint := some "e", modelId := some "m" } "t" =
      CaptionRoute.healthHandler { apiKey := some "k", endpoint := some "e", modelId := some "m" } "t" ∧
    CaptionRoute.getVisionService { apiKey := none, endpoint := some "e", modelId := some "m" } =
      Except.error "Missing required Azure OpenAI environment variables" ∧
    (CaptionRoute.postCaption (some { buffer := [1], mimetype := "image/gif" })
        (Except.error "Missing required Azure OpenAI environment variables") "t").1 =
      { status := 500,
        body := { success := false, caption := none,
                  error := some "Missing required Azure OpenAI environment variables",
                  timestamp := "t" } } :=
  c10_health_ignores_config { apiKey := none, endpoint := some "e", modelId := some "m" }
    { apiKey := some "k", endpoint := some "e", modelId := some "m" }
    { buffer := [1], mimetype := "image/gif" } "t" (Or.inl (by decide)) (by decide)
